import Mathlib

/-!
Shallow embedding of `src/platform/macos/events_loop.rs` (winit macOS events
loop): the normalized event catalog, the virtual-key-code table, the native
event model, the event translator `ns_event_to_event`, the callback guard
`UserCallback`, and the loop driver (`run_forever` / `interrupt`).

Conventions of the embedding:
- Rust `u16`/`u8` values are `Nat` with explicit `% 256` where the source
  casts (`as u8`);
- `f32`/`f64`/`CGFloat` quantities are modelled as `ℚ` (the source performs
  only multiplication and subtraction on them; the claims' concrete values
  are exactly representable);
- `VecDeque<Event>` is a `List Event` with the front at the head:
  `push_back` appends, `pop_front` is `head?`/`tail`, `extend` is `++`;
- a Rust panic is an explicit result (`TransResult.panic`, or `none` for
  `call_with_event`);
- FFI side effects with no bearing on the loop state (forwarding the event
  to `NSApp().sendEvent_`, autorelease pools) are not modelled; the
  collaborator `Window` is modelled as a record of the queries the
  translator makes of it.
-/

namespace Winit

/-- Normalized element state (`events::ElementState`). -/
inductive ElementState
  | Pressed
  | Released
  deriving DecidableEq, Repr

/-- Normalized mouse button (`events::MouseButton`, the variants used). -/
inductive MouseButton
  | Left
  | Right
  | Middle
  deriving DecidableEq, Repr

/-- Normalized touch phase (`events::TouchPhase`). -/
inductive TouchPhase
  | Started
  | Moved
  | Ended
  deriving DecidableEq, Repr

/-- Scroll delta (`events::MouseScrollDelta`): line or pixel, per axis. -/
inductive MouseScrollDelta
  | LineDelta (x y : ℚ)
  | PixelDelta (x y : ℚ)
  deriving DecidableEq, Repr

/-- Virtual key codes (`events::VirtualKeyCode`): the variants reachable from
the table in `to_virtual_key_code` plus the four modifier keys. -/
inductive VirtualKeyCode
  | A | S | D | F | H | G | Z | X | C | V | B | Q | W | E | R | Y | T
  | Key1 | Key2 | Key3 | Key4 | Key5 | Key6 | Key7 | Key8 | Key9 | Key0
  | Equals | Minus | RBracket | LBracket | O | U | I | P | Return | L | J
  | Apostrophe | K | Semicolon | Backslash | Comma | Slash | N | M | Period
  | Tab | Space | Grave | Back | Escape
  | RWin | LWin | LShift | LControl | RShift | RControl | LAlt
  | Decimal | Multiply | Add | Numlock | VolumeUp | VolumeDown | Divide
  | NumpadEnter | Subtract | NumpadEquals
  | Numpad0 | Numpad1 | Numpad2 | Numpad3 | Numpad4 | Numpad5 | Numpad6
  | Numpad7 | Numpad8 | Numpad9
  | F1 | F2 | F3 | F4 | F5 | F6 | F7 | F8 | F9 | F10 | F11 | F12 | F13 | F14 | F15
  | Insert | Home | PageUp | Delete | End | PageDown | Left | Right | Down | Up
  deriving DecidableEq, Repr

/-- Normalized window event (`events::WindowEvent`, the variants the
translator produces). -/
inductive WindowEvent
  | ReceivedCharacter (c : Char)
  | KeyboardInput (state : ElementState) (code : Nat) (vkey : Option VirtualKeyCode)
  | MouseInput (state : ElementState) (button : MouseButton)
  | MouseEntered
  | MouseLeft
  | MouseMoved (x y : Int)
  | MouseWheel (delta : MouseScrollDelta) (phase : TouchPhase)
  | TouchpadPressure (pressure : ℚ) (stage : Int)
  | Awakened
  deriving DecidableEq, Repr

/-- Normalized top-level event: `Event::WindowEvent { window_id, event }`. -/
structure Event where
  window_id : Nat
  event : WindowEvent
  deriving DecidableEq, Repr

/-- `to_virtual_key_code`: the pure scan-code → optional key table
(source lines 444–577), entry for entry. -/
def to_virtual_key_code (code : Nat) : Option VirtualKeyCode :=
  match code with
  | 0x00 => some VirtualKeyCode.A
  | 0x01 => some VirtualKeyCode.S
  | 0x02 => some VirtualKeyCode.D
  | 0x03 => some VirtualKeyCode.F
  | 0x04 => some VirtualKeyCode.H
  | 0x05 => some VirtualKeyCode.G
  | 0x06 => some VirtualKeyCode.Z
  | 0x07 => some VirtualKeyCode.X
  | 0x08 => some VirtualKeyCode.C
  | 0x09 => some VirtualKeyCode.V
  | 0x0b => some VirtualKeyCode.B
  | 0x0c => some VirtualKeyCode.Q
  | 0x0d => some VirtualKeyCode.W
  | 0x0e => some VirtualKeyCode.E
  | 0x0f => some VirtualKeyCode.R
  | 0x10 => some VirtualKeyCode.Y
  | 0x11 => some VirtualKeyCode.T
  | 0x12 => some VirtualKeyCode.Key1
  | 0x13 => some VirtualKeyCode.Key2
  | 0x14 => some VirtualKeyCode.Key3
  | 0x15 => some VirtualKeyCode.Key4
  | 0x16 => some VirtualKeyCode.Key6
  | 0x17 => some VirtualKeyCode.Key5
  | 0x18 => some VirtualKeyCode.Equals
  | 0x19 => some VirtualKeyCode.Key9
  | 0x1a => some VirtualKeyCode.Key7
  | 0x1b => some VirtualKeyCode.Minus
  | 0x1c => some VirtualKeyCode.Key8
  | 0x1d => some VirtualKeyCode.Key0
  | 0x1e => some VirtualKeyCode.RBracket
  | 0x1f => some VirtualKeyCode.O
  | 0x20 => some VirtualKeyCode.U
  | 0x21 => some VirtualKeyCode.LBracket
  | 0x22 => some VirtualKeyCode.I
  | 0x23 => some VirtualKeyCode.P
  | 0x24 => some VirtualKeyCode.Return
  | 0x25 => some VirtualKeyCode.L
  | 0x26 => some VirtualKeyCode.J
  | 0x27 => some VirtualKeyCode.Apostrophe
  | 0x28 => some VirtualKeyCode.K
  | 0x29 => some VirtualKeyCode.Semicolon
  | 0x2a => some VirtualKeyCode.Backslash
  | 0x2b => some VirtualKeyCode.Comma
  | 0x2c => some VirtualKeyCode.Slash
  | 0x2d => some VirtualKeyCode.N
  | 0x2e => some VirtualKeyCode.M
  | 0x2f => some VirtualKeyCode.Period
  | 0x30 => some VirtualKeyCode.Tab
  | 0x31 => some VirtualKeyCode.Space
  | 0x32 => some VirtualKeyCode.Grave
  | 0x33 => some VirtualKeyCode.Back
  | 0x35 => some VirtualKeyCode.Escape
  | 0x36 => some VirtualKeyCode.RWin
  | 0x37 => some VirtualKeyCode.LWin
  | 0x38 => some VirtualKeyCode.LShift
  | 0x3b => some VirtualKeyCode.LControl
  | 0x3c => some VirtualKeyCode.RShift
  | 0x3e => some VirtualKeyCode.RControl
  | 0x41 => some VirtualKeyCode.Decimal
  | 0x43 => some VirtualKeyCode.Multiply
  | 0x45 => some VirtualKeyCode.Add
  | 0x47 => some VirtualKeyCode.Numlock
  | 0x49 => some VirtualKeyCode.VolumeUp
  | 0x4a => some VirtualKeyCode.VolumeDown
  | 0x4b => some VirtualKeyCode.Divide
  | 0x4c => some VirtualKeyCode.NumpadEnter
  | 0x4e => some VirtualKeyCode.Subtract
  | 0x51 => some VirtualKeyCode.NumpadEquals
  | 0x52 => some VirtualKeyCode.Numpad0
  | 0x53 => some VirtualKeyCode.Numpad1
  | 0x54 => some VirtualKeyCode.Numpad2
  | 0x55 => some VirtualKeyCode.Numpad3
  | 0x56 => some VirtualKeyCode.Numpad4
  | 0x57 => some VirtualKeyCode.Numpad5
  | 0x58 => some VirtualKeyCode.Numpad6
  | 0x59 => some VirtualKeyCode.Numpad7
  | 0x5b => some VirtualKeyCode.Numpad8
  | 0x5c => some VirtualKeyCode.Numpad9
  | 0x60 => some VirtualKeyCode.F5
  | 0x61 => some VirtualKeyCode.F6
  | 0x62 => some VirtualKeyCode.F7
  | 0x63 => some VirtualKeyCode.F3
  | 0x64 => some VirtualKeyCode.F8
  | 0x65 => some VirtualKeyCode.F9
  | 0x67 => some VirtualKeyCode.F11
  | 0x69 => some VirtualKeyCode.F13
  | 0x6b => some VirtualKeyCode.F14
  | 0x6d => some VirtualKeyCode.F10
  | 0x6f => some VirtualKeyCode.F12
  | 0x71 => some VirtualKeyCode.F15
  | 0x72 => some VirtualKeyCode.Insert
  | 0x73 => some VirtualKeyCode.Home
  | 0x74 => some VirtualKeyCode.PageUp
  | 0x75 => some VirtualKeyCode.Delete
  | 0x76 => some VirtualKeyCode.F4
  | 0x77 => some VirtualKeyCode.End
  | 0x78 => some VirtualKeyCode.F2
  | 0x79 => some VirtualKeyCode.PageDown
  | 0x7a => some VirtualKeyCode.F1
  | 0x7b => some VirtualKeyCode.Left
  | 0x7c => some VirtualKeyCode.Right
  | 0x7d => some VirtualKeyCode.Down
  | 0x7e => some VirtualKeyCode.Up
  | _ => none

/-- A UTF-8 continuation byte: `0x80 ≤ b ≤ 0xBF`. -/
def utf8IsCont (b : Nat) : Bool :=
  0x80 ≤ b && b ≤ 0xBF

/-- Allowed second byte of a three-byte UTF-8 sequence (strict, as in Rust's
`std::str::from_utf8`: excludes overlong forms and surrogates). -/
def utf8SecondOk3 (b0 b1 : Nat) : Bool :=
  if b0 = 0xE0 then 0xA0 ≤ b1 && b1 ≤ 0xBF
  else if b0 = 0xED then 0x80 ≤ b1 && b1 ≤ 0x9F
  else utf8IsCont b1

/-- Allowed second byte of a four-byte UTF-8 sequence (strict: excludes
overlong forms and values above U+10FFFF). -/
def utf8SecondOk4 (b0 b1 : Nat) : Bool :=
  if b0 = 0xF0 then 0x90 ≤ b1 && b1 ≤ 0xBF
  else if b0 = 0xF4 then 0x80 ≤ b1 && b1 ≤ 0x8F
  else utf8IsCont b1

/-- Decode one UTF-8 scalar from the front of a byte list, returning the
scalar value and the remaining bytes; `none` on any invalid sequence.
Mirrors the validity rules of Rust's `std::str::from_utf8`. -/
def utf8DecodeStep : List Nat → Option (Nat × List Nat)
  | [] => none
  | b0 :: rest =>
    if b0 ≤ 0x7F then some (b0, rest)
    else if 0xC2 ≤ b0 && b0 ≤ 0xDF then
      match rest with
      | b1 :: r =>
        if utf8IsCont b1 then some ((b0 - 0xC0) * 0x40 + (b1 - 0x80), r) else none
      | _ => none
    else if 0xE0 ≤ b0 && b0 ≤ 0xEF then
      match rest with
      | b1 :: b2 :: r =>
        if utf8SecondOk3 b0 b1 && utf8IsCont b2 then
          some ((b0 - 0xE0) * 0x1000 + (b1 - 0x80) * 0x40 + (b2 - 0x80), r)
        else none
      | _ => none
    else if 0xF0 ≤ b0 && b0 ≤ 0xF4 then
      match rest with
      | b1 :: b2 :: b3 :: r =>
        if utf8SecondOk4 b0 b1 && utf8IsCont b2 && utf8IsCont b3 then
          some ((b0 - 0xF0) * 0x40000 + (b1 - 0x80) * 0x1000 +
                (b2 - 0x80) * 0x40 + (b3 - 0x80), r)
        else none
      | _ => none
    else none

/-- Fuelled driver for `utf8Decode`; each step consumes at least one byte,
so fuel equal to the length of the list is always enough. -/
def utf8DecodeAux : Nat → List Nat → Option (List Char)
  | _, [] => some []
  | 0, _ :: _ => none
  | fuel + 1, l@(_ :: _) =>
    match utf8DecodeStep l with
    | none => none
    | some (n, r) => (utf8DecodeAux fuel r).map (fun cs => Char.ofNat n :: cs)

/-- Strict UTF-8 decoding of a byte list into Unicode scalars, the embedding
of `std::str::from_utf8(..)` followed by `.chars()` (source line 266):
`some` exactly on valid UTF-8. -/
def utf8Decode (l : List Nat) : Option (List Char) :=
  utf8DecodeAux l.length l

/-- Native event types (`NSEventType`, the variants the translator matches
on). `BogusType21` is the undocumented raw value 21 the source filters
defensively; `OtherType` stands for every other variant. -/
inductive NSEventType
  | NSKeyDown
  | NSKeyUp
  | NSFlagsChanged
  | NSLeftMouseDown
  | NSLeftMouseUp
  | NSRightMouseDown
  | NSRightMouseUp
  | NSOtherMouseDown
  | NSOtherMouseUp
  | NSMouseEntered
  | NSMouseExited
  | NSMouseMoved
  | NSLeftMouseDragged
  | NSOtherMouseDragged
  | NSRightMouseDragged
  | NSScrollWheel
  | NSEventTypePressure
  | NSApplicationDefined
  | BogusType21
  | OtherType
  deriving DecidableEq, Repr

/-- Native modifier bitmask, restricted to the four masks the source tests
with `.contains` (`NSShiftKeyMask`, `NSControlKeyMask`, `NSCommandKeyMask`,
`NSAlternateKeyMask`). -/
structure ModifierFlags where
  shift : Bool
  control : Bool
  command : Bool
  alternate : Bool
  deriving DecidableEq, Repr

/-- Native scroll/gesture phase (`NSEventPhase`). -/
inductive NSEventPhase
  | MayBegin
  | Began
  | Changed
  | Stationary
  | Ended
  | Cancelled
  | NonePhase
  deriving DecidableEq, Repr

/-- Native application-defined event subtype: the activated subtype used as
the wake signal, or anything else. -/
inductive NSEventSubtype
  | ApplicationActivated
  | OtherSubtype
  deriving DecidableEq, Repr

/-- A native `NSEvent`, restricted to the queries the translator performs on
it. `windowNumber` is `get_window_id(ns_event.window())`; `windowIsNil`
records whether `ns_event.window()` was nil (which forces the
convert-through-screen path for mouse moves). `characters` is the UTF-8 byte
content of `ns_event.characters()`. -/
structure NSEvent where
  eventType : NSEventType
  windowNumber : Nat
  windowIsNil : Bool
  characters : List Nat
  keyCode : Nat
  modifierFlags : ModifierFlags
  hasPreciseScrollingDeltas : Bool
  scrollingDeltaX : ℚ
  scrollingDeltaY : ℚ
  phase : NSEventPhase
  locationInWindow : ℚ × ℚ
  pressure : ℚ
  stage : Int
  subtype : NSEventSubtype

/-- The `Window` collaborator, modelled as the record of queries the
translator makes of it: stable `id()`, whether it is the native key window,
the DPI factor `hidpi_factor()`, the content view's frame height (for the
Y-axis flip), and the two point conversions used by the mouse-moved branch. -/
structure Window where
  id : Nat
  isKeyWindow : Bool
  hidpi_factor : ℚ
  viewFrameHeight : ℚ
  convertRectFromScreen : ℚ × ℚ → ℚ × ℚ
  convertPointFromView : ℚ × ℚ → ℚ × ℚ

/-- Tracked modifier state (`struct Modifiers`). -/
structure Modifiers where
  shift_pressed : Bool
  ctrl_pressed : Bool
  win_pressed : Bool
  alt_pressed : Bool
  deriving DecidableEq, Repr

/-- The mutable state of `EventsLoop` relevant to translation and the loop
driver: the window registry, the pending-event queue (front at head), the
tracked modifiers, and the interrupt flag. -/
structure EventsLoopState where
  windows : List Window
  pending_events : List Event
  modifiers : Modifiers
  interrupted : Bool

/-- Result of one call to `ns_event_to_event`: either an optional normalized
event together with the updated loop state, or a Rust panic. -/
inductive TransResult
  | ok (ret : Option Event) (st : EventsLoopState)
  | panic

/-- `into_event` closure (source lines 249–252): tag a window event with the
native event's window id. -/
def into_event (e : NSEvent) (we : WindowEvent) : Event :=
  { window_id := e.windowNumber, event := we }

/-- `windows.iter().find(|window| window_id == window.id())`
(source line 240). -/
def maybe_window (st : EventsLoopState) (e : NSEvent) : Option Window :=
  st.windows.find? (fun w => e.windowNumber == w.id)

/-- `maybe_key_window` closure (source lines 255–258): the first registered
window that is the native key window. -/
def maybe_key_window (st : EventsLoopState) : Option Window :=
  st.windows.find? (fun w => w.isKeyWindow)

/-- Inner `modifier_event` function (source lines 293–313): compare one
native level bit against the tracked state and emit an edge event. -/
def modifier_event (flagSet : Bool) (keyCode : Nat) (key : VirtualKeyCode)
    (key_pressed : Bool) : Option WindowEvent :=
  if !key_pressed && flagSet then
    some (WindowEvent.KeyboardInput ElementState.Pressed (keyCode % 256) (some key))
  else if key_pressed && !flagSet then
    some (WindowEvent.KeyboardInput ElementState.Released (keyCode % 256) (some key))
  else
    none

/-- Rust `as i32` truncation of a (real-valued) quantity modelled as `ℚ`:
rounding toward zero (`Int.tdiv`). -/
def f32_as_i32 (q : ℚ) : Int :=
  Int.tdiv q.num (Int.ofNat q.den)

/-- The view-space point of a mouse-moved event (source lines 379–387): when
the native window is nil, convert through screen space first. -/
def mouse_view_point (w : Window) (e : NSEvent) : ℚ × ℚ :=
  if e.windowIsNil then
    w.convertPointFromView (w.convertRectFromScreen e.locationInWindow)
  else
    w.convertPointFromView e.locationInWindow

/-- Final pixel X of a mouse-moved event (source line 391). -/
def mouse_x (w : Window) (e : NSEvent) : Int :=
  f32_as_i32 (w.hidpi_factor * (mouse_view_point w e).1)

/-- Final pixel Y of a mouse-moved event (source line 392): DPI-scaled and
flipped against the view frame height. -/
def mouse_y (w : Window) (e : NSEvent) : Int :=
  f32_as_i32 (w.hidpi_factor * (w.viewFrameHeight - (mouse_view_point w e).2))

/-- Scroll phase classification (source lines 414–418). -/
def scroll_phase (p : NSEventPhase) : TouchPhase :=
  match p with
  | NSEventPhase.MayBegin => TouchPhase.Started
  | NSEventPhase.Began => TouchPhase.Started
  | NSEventPhase.Ended => TouchPhase.Ended
  | _ => TouchPhase.Moved

/-- `EventsLoop::ns_event_to_event` (source lines 221–439). The forwarding
of every non-key-down event to `NSApp().sendEvent_` is an external FFI side
effect with no bearing on the loop state and is not modelled. -/
def ns_event_to_event (st : EventsLoopState) (ns_event : Option NSEvent) : TransResult :=
  match ns_event with
  | none => TransResult.ok none st
  | some e =>
    -- Defensive filter of the undocumented native event type 21.
    if e.eventType = NSEventType.BogusType21 then TransResult.ok none st
    else
      match e.eventType with
      | NSEventType.NSKeyDown =>
        match utf8Decode e.characters with
        | none => TransResult.panic   -- `std::str::from_utf8(..).unwrap()`
        | some received_chars =>
          let char_events := received_chars.map
            (fun c => into_event e (WindowEvent.ReceivedCharacter c))
          let vkey := to_virtual_key_code e.keyCode
          let code := e.keyCode % 256
          let events := char_events ++
            [into_event e (WindowEvent.KeyboardInput ElementState.Pressed code vkey)]
          TransResult.ok events.head?
            { st with pending_events := st.pending_events ++ events.tail }
      | NSEventType.NSKeyUp =>
        let vkey := to_virtual_key_code e.keyCode
        let code := e.keyCode % 256
        TransResult.ok
          (some (into_event e (WindowEvent.KeyboardInput ElementState.Released code vkey)))
          st
      | NSEventType.NSFlagsChanged =>
        let m0 := st.modifiers
        let s1 :=
          match modifier_event e.modifierFlags.shift e.keyCode
              VirtualKeyCode.LShift m0.shift_pressed with
          | some we => ({ m0 with shift_pressed := !m0.shift_pressed }, [into_event e we])
          | none => (m0, [])
        let m1 := s1.1
        let s2 :=
          match modifier_event e.modifierFlags.control e.keyCode
              VirtualKeyCode.LControl m1.ctrl_pressed with
          | some we => ({ m1 with ctrl_pressed := !m1.ctrl_pressed }, s1.2 ++ [into_event e we])
          | none => (m1, s1.2)
        let m2 := s2.1
        let s3 :=
          match modifier_event e.modifierFlags.command e.keyCode
              VirtualKeyCode.LWin m2.win_pressed with
          | some we => ({ m2 with win_pressed := !m2.win_pressed }, s2.2 ++ [into_event e we])
          | none => (m2, s2.2)
        let m3 := s3.1
        let s4 :=
          match modifier_event e.modifierFlags.alternate e.keyCode
              VirtualKeyCode.LAlt m3.alt_pressed with
          | some we => ({ m3 with alt_pressed := !m3.alt_pressed }, s3.2 ++ [into_event e we])
          | none => (m3, s3.2)
        let events := s4.2
        TransResult.ok events.head?
          { st with modifiers := s4.1,
                    pending_events := st.pending_events ++ events.tail }
      | NSEventType.NSLeftMouseDown =>
        TransResult.ok (some (into_event e
          (WindowEvent.MouseInput ElementState.Pressed MouseButton.Left))) st
      | NSEventType.NSLeftMouseUp =>
        TransResult.ok (some (into_event e
          (WindowEvent.MouseInput ElementState.Released MouseButton.Left))) st
      | NSEventType.NSRightMouseDown =>
        TransResult.ok (some (into_event e
          (WindowEvent.MouseInput ElementState.Pressed MouseButton.Right))) st
      | NSEventType.NSRightMouseUp =>
        TransResult.ok (some (into_event e
          (WindowEvent.MouseInput ElementState.Released MouseButton.Right))) st
      | NSEventType.NSOtherMouseDown =>
        TransResult.ok (some (into_event e
          (WindowEvent.MouseInput ElementState.Pressed MouseButton.Middle))) st
      | NSEventType.NSOtherMouseUp =>
        TransResult.ok (some (into_event e
          (WindowEvent.MouseInput ElementState.Released MouseButton.Middle))) st
      | NSEventType.NSMouseEntered =>
        TransResult.ok (some (into_event e WindowEvent.MouseEntered)) st
      | NSEventType.NSMouseExited =>
        TransResult.ok (some (into_event e WindowEvent.MouseLeft)) st
      | NSEventType.NSMouseMoved =>
        match (maybe_window st e).orElse (fun _ => maybe_key_window st) with
        | none => TransResult.ok none st
        | some w =>
          TransResult.ok
            (some (Event.mk w.id (WindowEvent.MouseMoved (mouse_x w e) (mouse_y w e)))) st
      | NSEventType.NSLeftMouseDragged =>
        match (maybe_window st e).orElse (fun _ => maybe_key_window st) with
        | none => TransResult.ok none st
        | some w =>
          TransResult.ok
            (some (Event.mk w.id (WindowEvent.MouseMoved (mouse_x w e) (mouse_y w e)))) st
      | NSEventType.NSOtherMouseDragged =>
        match (maybe_window st e).orElse (fun _ => maybe_key_window st) with
        | none => TransResult.ok none st
        | some w =>
          TransResult.ok
            (some (Event.mk w.id (WindowEvent.MouseMoved (mouse_x w e) (mouse_y w e)))) st
      | NSEventType.NSRightMouseDragged =>
        match (maybe_window st e).orElse (fun _ => maybe_key_window st) with
        | none => TransResult.ok none st
        | some w =>
          TransResult.ok
            (some (Event.mk w.id (WindowEvent.MouseMoved (mouse_x w e) (mouse_y w e)))) st
      | NSEventType.NSScrollWheel =>
        match maybe_window st e with
        | none => TransResult.ok none st
        | some w =>
          let scale_factor := w.hidpi_factor
          let delta :=
            if e.hasPreciseScrollingDeltas then
              MouseScrollDelta.PixelDelta (scale_factor * e.scrollingDeltaX)
                (scale_factor * e.scrollingDeltaY)
            else
              MouseScrollDelta.LineDelta (scale_factor * e.scrollingDeltaX)
                (scale_factor * e.scrollingDeltaY)
          TransResult.ok (some (into_event e
            (WindowEvent.MouseWheel delta (scroll_phase e.phase)))) st
      | NSEventType.NSEventTypePressure =>
        TransResult.ok (some (into_event e
          (WindowEvent.TouchpadPressure e.pressure e.stage))) st
      | NSEventType.NSApplicationDefined =>
        match e.subtype with
        | NSEventSubtype.ApplicationActivated =>
          TransResult.ok (some (into_event e WindowEvent.Awakened)) st
        | NSEventSubtype.OtherSubtype => TransResult.ok none st
      | _ => TransResult.ok none st

/-! ### Callback guard (`UserCallback`)

The slot holds at most one raw callback pointer; pointers are modelled as
opaque natural numbers, the slot as `Option Nat`. -/

namespace UserCallback

/-- `UserCallback::store` (source lines 54–60): unconditionally writes the
new pointer into the mutex-protected slot, whatever it held before. -/
def store (_slot : Option Nat) (p : Nat) : Option Nat :=
  some p

/-- `UserCallback::drop` (source lines 80–82): takes the slot's content out,
leaving it empty. -/
def drop_slot (_slot : Option Nat) : Option Nat :=
  none

/-- `UserCallback::call_with_event` (source lines 71–75), viewed through its
effect on the slot. The pointer is taken out (`take().unwrap()`, a panic —
modelled as `none` — when the slot is empty), the user callback runs (its
re-entrant net effect on the slot is an arbitrary function, applied to the
now-empty slot), and then the original pointer is written back, overwriting
whatever the callback left there. Returns the slot content after the call. -/
def call_with_event (slot : Option Nat) (callback_effect : Option Nat → Option Nat) :
    Option (Option Nat) :=
  match slot with
  | none => none
  | some callback =>
    let slot_after_callback := callback_effect none
    let _ := slot_after_callback
    some (some callback)

/-- Net effect on the callback slot of a complete nested
`poll_events`/`run_forever` call made from inside a user callback: it
`store`s its own (nested) pointer at entry and `drop`s the slot at exit. -/
def nested_loop_effect (q : Nat) (slot : Option Nat) : Option Nat :=
  drop_slot (store slot q)

end UserCallback

/-! ### Loop driver (`run_forever` / `interrupt`)

The environment of one `run_forever` call is a list of external actions:
native events arriving in order, interleaved with `interrupt()` calls from
other threads (each of which sets the flag and posts a wake event at the end
of the native queue, exactly as source lines 197–218 do). The user callback
is modelled as a sink: dispatched events are accumulated in a trace. -/

/-- The synthetic wake event `interrupt` posts (source lines 203–215):
application-defined, activated subtype, nil window. -/
def wakeNSEvent : NSEvent where
  eventType := NSEventType.NSApplicationDefined
  windowNumber := 0
  windowIsNil := true
  characters := []
  keyCode := 0
  modifierFlags := { shift := false, control := false, command := false, alternate := false }
  hasPreciseScrollingDeltas := false
  scrollingDeltaX := 0
  scrollingDeltaY := 0
  phase := NSEventPhase.NonePhase
  locationInWindow := (0, 0)
  pressure := 0
  stage := 0
  subtype := NSEventSubtype.ApplicationActivated

/-- `EventsLoop::interrupt` (source lines 197–218): set the interrupt flag
and post the synthetic wake event at the end of the native queue. -/
def interrupt (st : EventsLoopState) (native_queue : List NSEvent) :
    EventsLoopState × List NSEvent :=
  ({ st with interrupted := true }, native_queue ++ [wakeNSEvent])

/-- One external action seen by a blocking fetch: a native event arriving,
or an `interrupt()` call from another thread. -/
inductive ExtAction
  | native (e : NSEvent)
  | intr

/-- Number of interrupt actions in an action list (termination measure for
`fetchNative`). -/
def countIntr : List ExtAction → Nat
  | [] => 0
  | ExtAction.intr :: r => countIntr r + 1
  | ExtAction.native _ :: r => countIntr r

/-- Fuelled worker for `fetchNative`. Each consumed interrupt action
appends one native wake event and never adds further interrupt actions, so
fuel equal to the number of interrupt actions in the list is exact and the
fuel-exhausted arm is unreachable from `fetchNative`. -/
def fetchNativeAux : Nat → EventsLoopState → List ExtAction →
    Option (EventsLoopState × NSEvent × List ExtAction)
  | _, _, [] => none
  | _, st, ExtAction.native e :: rest => some (st, e, rest)
  | 0, _, ExtAction.intr :: _ => none
  | f + 1, st, ExtAction.intr :: rest =>
    fetchNativeAux f { st with interrupted := true } (rest ++ [ExtAction.native wakeNSEvent])

/-- The blocking native fetch of `run_forever` (source lines 171–175): wait
until a native event is available. An `interrupt()` firing while blocked
applies its two effects — the flag is set and the wake event is appended to
the queue — and the fetch keeps waiting; an empty action list means the
fetch blocks forever. -/
def fetchNative (st : EventsLoopState) (acts : List ExtAction) :
    Option (EventsLoopState × NSEvent × List ExtAction) :=
  fetchNativeAux (countIntr acts) st acts

/-- Outcome of a (fuelled) `run_forever` call: normal interrupted exit with
the final state, the trace of dispatched events and the unconsumed actions;
blocked forever in the native fetch; a panic during translation; or fuel
exhaustion. -/
inductive RunOutcome
  | finished (st : EventsLoopState) (dispatched : List Event) (rest : List ExtAction)
  | blocked (st : EventsLoopState) (dispatched : List Event)
  | panicked (dispatched : List Event)
  | out_of_fuel (st : EventsLoopState) (dispatched : List Event) (rest : List ExtAction)

/-- The inner loop of `EventsLoop::run_forever` (source lines 161–192):
drain the pending queue into the callback, block for one native event,
translate it, dispatch the resulting event if any, then check the interrupt
flag — if set, clear it and return. `fuel` bounds the number of
iterations. -/
def run_forever_go : Nat → EventsLoopState → List ExtAction → List Event → RunOutcome
  | 0, st, acts, out => RunOutcome.out_of_fuel st out acts
  | fuel + 1, st, acts, out =>
    let out1 := out ++ st.pending_events
    let st1 := { st with pending_events := [] }
    match fetchNative st1 acts with
    | none => RunOutcome.blocked st1 out1
    | some (st2, e, acts2) =>
      match ns_event_to_event st2 (some e) with
      | TransResult.panic => RunOutcome.panicked out1
      | TransResult.ok ret st3 =>
        let out2 :=
          match ret with
          | some ev => out1 ++ [ev]
          | none => out1
        if st3.interrupted then
          RunOutcome.finished { st3 with interrupted := false } out2 acts2
        else
          run_forever_go fuel st3 acts2 out2

/-- `EventsLoop::run_forever` (source lines 148–195): clears the interrupt
flag on entry, then runs the inner loop. (The callback install/uninstall
around the loop is the `UserCallback` model above.) -/
def run_forever (fuel : Nat) (st : EventsLoopState) (acts : List ExtAction) : RunOutcome :=
  run_forever_go fuel { st with interrupted := false } acts []

/-! ### Spec-side descriptions and auxiliary definitions used by the
theorems below. -/

/-- The full list of normalized events a key-down with decoded text `cs`
gives rise to: one character event per Unicode scalar, in arrival order,
then the single pressed keyboard event with the raw code (as `u8`) and the
table-resolved symbolic key. -/
def key_down_events (e : NSEvent) (cs : List Char) : List Event :=
  cs.map (fun c => into_event e (WindowEvent.ReceivedCharacter c)) ++
  [into_event e (WindowEvent.KeyboardInput ElementState.Pressed (e.keyCode % 256)
    (to_virtual_key_code e.keyCode))]

/-- One of the four tracked modifier keys, in the fixed order the translator
examines them. -/
inductive ModKey
  | shift
  | ctrl
  | win
  | alt
  deriving DecidableEq, Repr

/-- The tracked bit for one modifier key. -/
def Modifiers.get (m : Modifiers) : ModKey → Bool
  | ModKey.shift => m.shift_pressed
  | ModKey.ctrl => m.ctrl_pressed
  | ModKey.win => m.win_pressed
  | ModKey.alt => m.alt_pressed

/-- Replace the tracked bit for one modifier key. -/
def Modifiers.setKey (m : Modifiers) : ModKey → Bool → Modifiers
  | ModKey.shift, b => { m with shift_pressed := b }
  | ModKey.ctrl, b => { m with ctrl_pressed := b }
  | ModKey.win, b => { m with win_pressed := b }
  | ModKey.alt, b => { m with alt_pressed := b }

/-- The native bitmask whose four level bits agree with a tracked state. -/
def ModifierFlags.ofModifiers (m : Modifiers) : ModifierFlags where
  shift := m.shift_pressed
  control := m.ctrl_pressed
  command := m.win_pressed
  alternate := m.alt_pressed

/-- Replace one level bit of a native bitmask. -/
def ModifierFlags.setKey (f : ModifierFlags) : ModKey → Bool → ModifierFlags
  | ModKey.shift, b => { f with shift := b }
  | ModKey.ctrl, b => { f with control := b }
  | ModKey.win, b => { f with command := b }
  | ModKey.alt, b => { f with alternate := b }

/-- The symbolic key the translator reports for each modifier. -/
def ModKey.vkc : ModKey → VirtualKeyCode
  | ModKey.shift => VirtualKeyCode.LShift
  | ModKey.ctrl => VirtualKeyCode.LControl
  | ModKey.win => VirtualKeyCode.LWin
  | ModKey.alt => VirtualKeyCode.LAlt

/-- Spec-order description of the flags-changed branch: the (at most four)
modifier edge events of one notification, in the fixed order shift,
control, meta, alt, each modifier contributing at most one event. -/
def modifier_events_in_order (m : Modifiers) (e : NSEvent) : List WindowEvent :=
  (modifier_event e.modifierFlags.shift e.keyCode VirtualKeyCode.LShift m.shift_pressed).toList ++
  (modifier_event e.modifierFlags.control e.keyCode VirtualKeyCode.LControl m.ctrl_pressed).toList ++
  (modifier_event e.modifierFlags.command e.keyCode VirtualKeyCode.LWin m.win_pressed).toList ++
  (modifier_event e.modifierFlags.alternate e.keyCode VirtualKeyCode.LAlt m.alt_pressed).toList

/-- Tracked state after one flags-changed notification: each of the four
bits flips exactly when its modifier emitted an edge event. -/
def modifiers_after_flags (m : Modifiers) (e : NSEvent) : Modifiers where
  shift_pressed :=
    if (modifier_event e.modifierFlags.shift e.keyCode VirtualKeyCode.LShift m.shift_pressed).isSome
    then !m.shift_pressed else m.shift_pressed
  ctrl_pressed :=
    if (modifier_event e.modifierFlags.control e.keyCode VirtualKeyCode.LControl m.ctrl_pressed).isSome
    then !m.ctrl_pressed else m.ctrl_pressed
  win_pressed :=
    if (modifier_event e.modifierFlags.command e.keyCode VirtualKeyCode.LWin m.win_pressed).isSome
    then !m.win_pressed else m.win_pressed
  alt_pressed :=
    if (modifier_event e.modifierFlags.alternate e.keyCode VirtualKeyCode.LAlt m.alt_pressed).isSome
    then !m.alt_pressed else m.alt_pressed

/-- Scan codes 0–127 absent from the `to_virtual_key_code` table (the
commented-out rows of the source table). -/
def unmapped_codes : List Nat :=
  [0x0a, 0x34, 0x39, 0x3a, 0x3d, 0x3f, 0x40, 0x42, 0x44, 0x46, 0x48, 0x4d,
   0x4f, 0x50, 0x5a, 0x5d, 0x5e, 0x5f, 0x66, 0x68, 0x6a, 0x6c, 0x6e, 0x70, 0x7f]

/-! ### Concrete loop states, windows and native events used as witness
inputs. -/

/-- A fresh loop state, as built by `EventsLoop::new`: no windows, empty
pending queue, all modifiers untracked, not interrupted. -/
def st0 : EventsLoopState where
  windows := []
  pending_events := []
  modifiers := { shift_pressed := false, ctrl_pressed := false
                 win_pressed := false, alt_pressed := false }
  interrupted := false

/-- A key-down whose text decodes to "ab" (scan code 0, owning window 3). -/
def kd_ab : NSEvent :=
  { wakeNSEvent with
    eventType := NSEventType.NSKeyDown
    characters := [0x61, 0x62]
    keyCode := 0
    windowNumber := 3
    subtype := NSEventSubtype.OtherSubtype }

/-- A key-down whose raw text bytes are not valid UTF-8. -/
def bad_utf8_keydown : NSEvent :=
  { wakeNSEvent with
    eventType := NSEventType.NSKeyDown
    characters := [0xFF]
    keyCode := 0
    subtype := NSEventSubtype.OtherSubtype }

/-- A key-up carrying the unmapped scan code `0x7f`. -/
def ku_7f : NSEvent :=
  { wakeNSEvent with
    eventType := NSEventType.NSKeyUp
    keyCode := 0x7f
    subtype := NSEventSubtype.OtherSubtype }

/-- A key-down with text "a" and the unmapped scan code `0x0a`. -/
def kd_unmapped : NSEvent :=
  { wakeNSEvent with
    eventType := NSEventType.NSKeyDown
    characters := [0x61]
    keyCode := 0x0a
    subtype := NSEventSubtype.OtherSubtype }

/-- Flags-changed notification raising the shift level bit
(scan code `0x38`). -/
def fc_shift_dn : NSEvent :=
  { wakeNSEvent with
    eventType := NSEventType.NSFlagsChanged
    keyCode := 0x38
    modifierFlags := { shift := true, control := false, command := false, alternate := false }
    subtype := NSEventSubtype.OtherSubtype }

/-- Flags-changed notification clearing all level bits. -/
def fc_shift_up : NSEvent :=
  { wakeNSEvent with
    eventType := NSEventType.NSFlagsChanged
    keyCode := 0x38
    modifierFlags := { shift := false, control := false, command := false, alternate := false }
    subtype := NSEventSubtype.OtherSubtype }

/-- Flags-changed notification raising shift and control at once. -/
def fc_both : NSEvent :=
  { wakeNSEvent with
    eventType := NSEventType.NSFlagsChanged
    keyCode := 0x38
    modifierFlags := { shift := true, control := true, command := false, alternate := false }
    subtype := NSEventSubtype.OtherSubtype }

/-- A registered, non-key window with id 5 and DPI factor 2. -/
def scroll_win : Window where
  id := 5
  isKeyWindow := false
  hidpi_factor := 2
  viewFrameHeight := 40
  convertRectFromScreen := id
  convertPointFromView := id

/-- Loop state whose registry holds exactly `scroll_win`. -/
def stW : EventsLoopState :=
  { st0 with windows := [scroll_win] }

/-- A precise scroll event on window 5 with native deltas (2, −3). -/
def sw_precise : NSEvent :=
  { wakeNSEvent with
    eventType := NSEventType.NSScrollWheel
    windowNumber := 5
    hasPreciseScrollingDeltas := true
    scrollingDeltaX := 2
    scrollingDeltaY := -3
    subtype := NSEventSubtype.OtherSubtype }

/-- The same scroll event without precise deltas. -/
def sw_coarse : NSEvent :=
  { sw_precise with hasPreciseScrollingDeltas := false }

/-- A registered window with id 8 that is the native key window. -/
def key_win : Window where
  id := 8
  isKeyWindow := true
  hidpi_factor := 1
  viewFrameHeight := 10
  convertRectFromScreen := id
  convertPointFromView := id

/-- Loop state whose registry holds exactly `key_win`. -/
def stK : EventsLoopState :=
  { st0 with windows := [key_win] }

/-- A mouse-moved event owned by the unregistered native window 9. -/
def mm_orphan : NSEvent :=
  { wakeNSEvent with
    eventType := NSEventType.NSMouseMoved
    windowNumber := 9
    windowIsNil := false
    locationInWindow := (3, 4)
    subtype := NSEventSubtype.OtherSubtype }

/-! ### Helper lemmas shared by the claim theorems. -/

/-- Shared characterization of the key-down branch: with decoded text `cs`,
translation returns the head of `key_down_events` and appends its tail to
the pending queue. -/
theorem key_down_translate_eq (st : EventsLoopState) (e : NSEvent) (cs : List Char)
    (ht : e.eventType = NSEventType.NSKeyDown)
    (hd : utf8Decode e.characters = some cs) :
    ns_event_to_event st (some e) =
      TransResult.ok (key_down_events e cs).head?
        { st with pending_events := st.pending_events ++ (key_down_events e cs).tail } := by
  simp [ns_event_to_event, ht, hd, key_down_events]

/-- A modifier whose native level bit equals its tracked bit emits no
event. -/
theorem modifier_event_same (b : Bool) (n : Nat) (k : VirtualKeyCode) :
    modifier_event b n k b = none := by
  cases b <;> simp [modifier_event]

/-! ### Claim theorems. -/

/-- C1: a key-down whose text decodes to the scalars `cs` enqueues one
character event per scalar in arrival order followed by one pressed
keyboard event carrying the raw code and the table-resolved key; translate
returns only the first of these and pushes exactly the rest, in order, onto
the pending queue. -/
theorem keydown_text_expansion (st : EventsLoopState) (e : NSEvent) (cs : List Char)
    (ht : e.eventType = NSEventType.NSKeyDown)
    (hd : utf8Decode e.characters = some cs) :
    ns_event_to_event st (some e) =
      TransResult.ok (key_down_events e cs).head?
        { st with pending_events := st.pending_events ++ (key_down_events e cs).tail } ∧
    key_down_events e cs =
      cs.map (fun c => into_event e (WindowEvent.ReceivedCharacter c)) ++
      [into_event e (WindowEvent.KeyboardInput ElementState.Pressed (e.keyCode % 256)
        (to_virtual_key_code e.keyCode))] ∧
    (key_down_events e cs).length = cs.length + 1 :=
  ⟨key_down_translate_eq st e cs ht hd, rfl, by simp [key_down_events]⟩

/-- C1 witness: key-down with text "ab" from a fresh state returns the
character event for 'a' and leaves exactly the character event for 'b' and
the pressed keyboard event, in that order, in the pending queue. -/
theorem keydown_text_expansion_witness :
    ns_event_to_event st0 (some kd_ab) =
      TransResult.ok (some (Event.mk 3 (WindowEvent.ReceivedCharacter 'a')))
        { st0 with pending_events :=
          [Event.mk 3 (WindowEvent.ReceivedCharacter 'b'),
           Event.mk 3 (WindowEvent.KeyboardInput ElementState.Pressed 0
             (some VirtualKeyCode.A))] } :=
  (keydown_text_expansion st0 kd_ab ['a', 'b'] rfl rfl).1

/-- C2 counterexample: `store` on an occupied slot does not fail — it
succeeds and silently replaces the held pointer. -/
theorem store_occupied_overwrites_counterexample :
    UserCallback.store (some 1) 2 = some 2 := rfl

/-- C2 amended: `store` unconditionally overwrites the slot with the new
pointer; installing over an occupied slot succeeds (replacing the previous
pointer) instead of aborting. -/
theorem store_unconditional_overwrite :
    ∀ (slot : Option Nat) (p : Nat), UserCallback.store slot p = some p :=
  fun _ _ => rfl

/-- C3: on a key-down whose raw text bytes are not valid UTF-8 the
translator does not degrade gracefully — the `unwrap` of `from_utf8`
panics, failing the whole dispatch (the unmapped-scan-code half of the
claim does hold: `to_virtual_key_code` yields `none` and key-up still emits
a keyboard event with the raw code preserved). -/
theorem invalid_utf8_keydown_panics :
    utf8Decode [0xFF] = none ∧
    ns_event_to_event st0 (some bad_utf8_keydown) = TransResult.panic ∧
    to_virtual_key_code 0x7f = none ∧
    ns_event_to_event st0 (some ku_7f) =
      TransResult.ok (some (Event.mk 0 (WindowEvent.KeyboardInput
        ElementState.Released 0x7f none))) st0 :=
  ⟨rfl, rfl, rfl, rfl⟩

/-- C4: from any tracked state in sync with the native levels, two
flags-changed notifications that toggle one modifier's level bit twice emit
exactly one press then one release of that modifier's key (starting from
not-pressed) and return the tracked state to its original value, leaving
the pending queue untouched. -/
theorem modifier_double_toggle (st : EventsLoopState) (k : ModKey) (e1 e2 : NSEvent)
    (h1t : e1.eventType = NSEventType.NSFlagsChanged)
    (h2t : e2.eventType = NSEventType.NSFlagsChanged)
    (hb : st.modifiers.get k = false)
    (hf1 : e1.modifierFlags = (ModifierFlags.ofModifiers st.modifiers).setKey k true)
    (hf2 : e2.modifierFlags = ModifierFlags.ofModifiers st.modifiers) :
    ns_event_to_event st (some e1) =
      TransResult.ok (some (into_event e1 (WindowEvent.KeyboardInput ElementState.Pressed
        (e1.keyCode % 256) (some k.vkc))))
        { st with modifiers := st.modifiers.setKey k true } ∧
    ns_event_to_event { st with modifiers := st.modifiers.setKey k true } (some e2) =
      TransResult.ok (some (into_event e2 (WindowEvent.KeyboardInput ElementState.Released
        (e2.keyCode % 256) (some k.vkc)))) st := by
  obtain ⟨wins, pend, ⟨ms, mc, mw, ma⟩, intr⟩ := st
  cases k <;>
    simp_all [ns_event_to_event, Modifiers.get, Modifiers.setKey, ModifierFlags.ofModifiers,
      ModifierFlags.setKey, ModKey.vkc, modifier_event_same, modifier_event]

/-- C4 witness: from the fresh state, raising then clearing the shift level
bit emits a press then a release of the left-shift key and restores the
tracked state. -/
theorem modifier_double_toggle_witness :
    st0.modifiers.get ModKey.shift = false ∧
    (ns_event_to_event st0 (some fc_shift_dn) =
      TransResult.ok (some (Event.mk 0 (WindowEvent.KeyboardInput ElementState.Pressed 0x38
        (some VirtualKeyCode.LShift))))
        { st0 with modifiers := st0.modifiers.setKey ModKey.shift true } ∧
    ns_event_to_event { st0 with modifiers := st0.modifiers.setKey ModKey.shift true }
        (some fc_shift_up) =
      TransResult.ok (some (Event.mk 0 (WindowEvent.KeyboardInput ElementState.Released 0x38
        (some VirtualKeyCode.LShift)))) st0) :=
  ⟨rfl, modifier_double_toggle st0 ModKey.shift fc_shift_dn fc_shift_up rfl rfl rfl rfl rfl⟩

/-- C5: the flags-changed branch examines the four modifiers independently
in the fixed order shift, control, meta, alt, each producing at most one
event; all resulting events are enqueued in that order, translate returns
the first and pushes the remaining ones, order preserved, onto the pending
queue, flipping exactly the tracked bits that emitted. -/
theorem flags_changed_fixed_order (st : EventsLoopState) (e : NSEvent)
    (ht : e.eventType = NSEventType.NSFlagsChanged) :
    ns_event_to_event st (some e) =
      TransResult.ok ((modifier_events_in_order st.modifiers e).head?.map (into_event e))
        { st with
          modifiers := modifiers_after_flags st.modifiers e
          pending_events := st.pending_events ++
            ((modifier_events_in_order st.modifiers e).tail.map (into_event e)) } ∧
    (modifier_events_in_order st.modifiers e).length ≤ 4 := by
  cases h1 : modifier_event e.modifierFlags.shift e.keyCode VirtualKeyCode.LShift
      st.modifiers.shift_pressed <;>
  cases h2 : modifier_event e.modifierFlags.control e.keyCode VirtualKeyCode.LControl
      st.modifiers.ctrl_pressed <;>
  cases h3 : modifier_event e.modifierFlags.command e.keyCode VirtualKeyCode.LWin
      st.modifiers.win_pressed <;>
  cases h4 : modifier_event e.modifierFlags.alternate e.keyCode VirtualKeyCode.LAlt
      st.modifiers.alt_pressed <;>
  simp_all [ns_event_to_event, modifier_events_in_order, modifiers_after_flags]

/-- C5 witness: a notification raising shift and control together returns
the left-shift press and leaves the left-control press in the pending
queue. -/
theorem flags_changed_fixed_order_witness :
    ns_event_to_event st0 (some fc_both) =
      TransResult.ok (some (Event.mk 0 (WindowEvent.KeyboardInput ElementState.Pressed 0x38
        (some VirtualKeyCode.LShift))))
        { st0 with
          modifiers := { shift_pressed := true, ctrl_pressed := true,
                         win_pressed := false, alt_pressed := false }
          pending_events := [Event.mk 0 (WindowEvent.KeyboardInput ElementState.Pressed 0x38
            (some VirtualKeyCode.LControl))] } ∧
    (modifier_events_in_order st0.modifiers fc_both).length ≤ 4 :=
  flags_changed_fixed_order st0 fc_both rfl

/-- C6: a scroll-wheel event resolving (strictly by owning window) to a
registered window yields a mouse-wheel event whose delta is a pixel delta
when the native event reports precise deltas and a line delta otherwise,
each axis being the window's DPI factor times the native delta; the loop
state is unchanged. -/
theorem scroll_wheel_delta_scaling (st : EventsLoopState) (e : NSEvent) (w : Window)
    (ht : e.eventType = NSEventType.NSScrollWheel)
    (hw : maybe_window st e = some w) :
    ns_event_to_event st (some e) =
      TransResult.ok (some (into_event e (WindowEvent.MouseWheel
        (if e.hasPreciseScrollingDeltas then
          MouseScrollDelta.PixelDelta (w.hidpi_factor * e.scrollingDeltaX)
            (w.hidpi_factor * e.scrollingDeltaY)
        else
          MouseScrollDelta.LineDelta (w.hidpi_factor * e.scrollingDeltaX)
            (w.hidpi_factor * e.scrollingDeltaY))
        (scroll_phase e.phase)))) st := by
  by_cases hp : e.hasPreciseScrollingDeltas <;>
    simp [ns_event_to_event, ht, hw, hp]

/-- C6 witness: precise deltas (2, −3) at DPI factor 2 yield a pixel delta
of (4, −6); the same imprecise input yields a line delta of the same
magnitude. -/
theorem scroll_wheel_delta_scaling_witness :
    ns_event_to_event stW (some sw_precise) =
      TransResult.ok (some (Event.mk 5 (WindowEvent.MouseWheel
        (MouseScrollDelta.PixelDelta 4 (-6)) TouchPhase.Moved))) stW ∧
    ns_event_to_event stW (some sw_coarse) =
      TransResult.ok (some (Event.mk 5 (WindowEvent.MouseWheel
        (MouseScrollDelta.LineDelta 4 (-6)) TouchPhase.Moved))) stW := by
  refine ⟨(scroll_wheel_delta_scaling stW sw_precise scroll_win rfl (by rfl)).trans ?_,
          (scroll_wheel_delta_scaling stW sw_coarse scroll_win rfl (by rfl)).trans ?_⟩ <;>
    norm_num [sw_precise, sw_coarse, scroll_win, into_event, scroll_phase, wakeNSEvent]

/-- C7: for mouse-moved and the three dragged event types, the target is
the registered window owning the event, else the registered key window,
else the translation yields no event and leaves the state unchanged (a
defined no-op, identical on repetition); when a target is resolved, the
emitted mouse-moved event is tagged with the resolved window's identity. -/
theorem mouse_move_window_resolution (st : EventsLoopState) (e : NSEvent)
    (ht : e.eventType = NSEventType.NSMouseMoved ∨
          e.eventType = NSEventType.NSLeftMouseDragged ∨
          e.eventType = NSEventType.NSOtherMouseDragged ∨
          e.eventType = NSEventType.NSRightMouseDragged) :
    (∀ w, maybe_window st e = some w →
      (maybe_window st e).orElse (fun _ => maybe_key_window st) = some w) ∧
    (maybe_window st e = none →
      (maybe_window st e).orElse (fun _ => maybe_key_window st) = maybe_key_window st) ∧
    ((maybe_window st e).orElse (fun _ => maybe_key_window st) = none →
      ns_event_to_event st (some e) = TransResult.ok none st) ∧
    (∀ w, (maybe_window st e).orElse (fun _ => maybe_key_window st) = some w →
      ns_event_to_event st (some e) =
        TransResult.ok
          (some (Event.mk w.id (WindowEvent.MouseMoved (mouse_x w e) (mouse_y w e)))) st) := by
  refine ⟨fun w h => by simp [h], fun h => by simp [h, Option.orElse], ?_, ?_⟩
  · rcases ht with ht | ht | ht | ht <;>
      exact fun h => by simp [ns_event_to_event, ht, h]
  · rcases ht with ht | ht | ht | ht <;>
      exact fun w h => by simp [ns_event_to_event, ht, h]

/-- C7 witness: a mouse-move owned by no registered window yields no event
from the empty registry (unchanged state), and resolves to the key window
when one exists, tagging the event with that window's id. -/
theorem mouse_move_window_resolution_witness :
    ns_event_to_event st0 (some mm_orphan) = TransResult.ok none st0 ∧
    ns_event_to_event stK (some mm_orphan) =
      TransResult.ok (some (Event.mk 8 (WindowEvent.MouseMoved 3 6))) stK := by
  refine ⟨(mouse_move_window_resolution st0 mm_orphan (Or.inl rfl)).2.2.1 (by rfl),
          ((mouse_move_window_resolution stK mm_orphan (Or.inl rfl)).2.2.2 key_win
            (by rfl)).trans ?_⟩
  norm_num [mouse_x, mouse_y, mouse_view_point, f32_as_i32, key_win, mm_orphan, wakeNSEvent]

/-- C8: over scan codes 0–127 the key table is a total pure function whose
`none` results are exactly the listed unmapped codes; a key-up (and the
keyboard event of a key-down) still emits a keyboard event with the raw
code preserved and the table's (possibly `none`) symbolic key. -/
theorem key_table_total_and_keyup :
    (∀ c, c < 128 → (to_virtual_key_code c = none ↔ c ∈ unmapped_codes)) ∧
    (∀ (st : EventsLoopState) (e : NSEvent), e.eventType = NSEventType.NSKeyUp →
      ns_event_to_event st (some e) =
        TransResult.ok (some (into_event e (WindowEvent.KeyboardInput ElementState.Released
          (e.keyCode % 256) (to_virtual_key_code e.keyCode)))) st) ∧
    (∀ (st : EventsLoopState) (e : NSEvent) (cs : List Char),
      e.eventType = NSEventType.NSKeyDown → utf8Decode e.characters = some cs →
      ns_event_to_event st (some e) =
        TransResult.ok (key_down_events e cs).head?
          { st with pending_events := st.pending_events ++ (key_down_events e cs).tail }) := by
  refine ⟨by decide, ?_, key_down_translate_eq⟩
  intro st e ht
  simp [ns_event_to_event, ht]

/-- C8 witness: scan code `0x7f` is unmapped; a key-up carrying it emits a
keyboard event with a `none` symbolic key and the raw code preserved, and a
key-down with unmapped code `0x0a` and text "a" still ends with such a
keyboard event in the pending queue. -/
theorem key_table_total_and_keyup_witness :
    (to_virtual_key_code 0x7f = none ↔ (0x7f : Nat) ∈ unmapped_codes) ∧
    ns_event_to_event st0 (some ku_7f) =
      TransResult.ok (some (Event.mk 0 (WindowEvent.KeyboardInput ElementState.Released
        0x7f none))) st0 ∧
    ns_event_to_event st0 (some kd_unmapped) =
      TransResult.ok (some (Event.mk 0 (WindowEvent.ReceivedCharacter 'a')))
        { st0 with pending_events :=
          [Event.mk 0 (WindowEvent.KeyboardInput ElementState.Pressed 0x0a none)] } :=
  ⟨key_table_total_and_keyup.1 0x7f (by norm_num),
   key_table_total_and_keyup.2.1 st0 ku_7f rfl,
   key_table_total_and_keyup.2.2 st0 kd_unmapped ['a'] rfl rfl⟩

/-- C9: `run_forever` clears the interrupt flag on entry (the initial flag
value is irrelevant); `interrupt` sets the flag and appends one synthetic
wake event to the native queue, and is idempotent on the loop state; a
fetch blocked on nothing but an interrupt returns the wake event promptly
with the flag set; a run whose only external action is one interrupt
dispatches the drained pending events plus the awakened notification and
returns with the flag cleared; and after any full iteration whose resulting
state has the flag set, the loop clears the flag and returns. -/
theorem run_forever_interrupt_protocol :
    (∀ fuel st acts, run_forever fuel st acts =
        run_forever fuel { st with interrupted := false } acts) ∧
    (∀ st nq, interrupt st nq = ({ st with interrupted := true }, nq ++ [wakeNSEvent])) ∧
    (∀ st nq nq2, (interrupt (interrupt st nq).1 nq2).1 = (interrupt st nq).1) ∧
    (∀ st, fetchNative st [ExtAction.intr] =
        some ({ st with interrupted := true }, wakeNSEvent, [])) ∧
    (∀ fuel st, run_forever (fuel + 1) st [ExtAction.intr] =
        RunOutcome.finished { st with pending_events := [], interrupted := false }
          (st.pending_events ++ [Event.mk 0 WindowEvent.Awakened]) []) ∧
    (∀ fuel st acts out st2 e acts2 ret st3,
        fetchNative { st with pending_events := [] } acts = some (st2, e, acts2) →
        ns_event_to_event st2 (some e) = TransResult.ok ret st3 →
        st3.interrupted = true →
        run_forever_go (fuel + 1) st acts out =
          RunOutcome.finished { st3 with interrupted := false }
            ((out ++ st.pending_events) ++ ret.toList) acts2) := by
  refine ⟨fun fuel st acts => rfl, fun st nq => rfl, fun st nq nq2 => rfl,
          fun st => rfl, ?_, ?_⟩
  · intro fuel st
    simp [run_forever, run_forever_go, fetchNative, fetchNativeAux, countIntr,
      ns_event_to_event, into_event, wakeNSEvent]
  · intro fuel st acts out st2 e acts2 ret st3 h1 h2 h3
    simp only [run_forever_go, h1, h2, h3]
    cases ret <;> simp

/-- C9 witness: from the fresh state, one iteration whose only external
action is an interrupt fetches the wake event, dispatches the awakened
notification and finishes with the flag cleared. -/
theorem run_forever_interrupt_protocol_witness :
    run_forever_go 1 st0 [ExtAction.intr] [] =
      RunOutcome.finished { st0 with interrupted := false }
        [Event.mk 0 WindowEvent.Awakened] [] := by
  have h := run_forever_interrupt_protocol.2.2.2.2.2 0 st0 [ExtAction.intr] []
    { st0 with pending_events := [], interrupted := true } wakeNSEvent []
    (some (Event.mk 0 WindowEvent.Awakened))
    { st0 with pending_events := [], interrupted := true }
    (by rfl) rfl rfl
  simpa using h

/-- C10: `call_with_event` takes the pointer out of the slot before running
the user callback and unconditionally writes it back afterwards, so the
slot again holds the original pointer whatever the callback's re-entrant
effect on the slot was (in particular a nested poll/run cycle, which stores
its own pointer and clears the slot on exit); invoking it on an empty slot
panics. -/
theorem call_with_event_slot_restore :
    (∀ (p : Nat) (eff : Option Nat → Option Nat),
      UserCallback.call_with_event (some p) eff = some (some p)) ∧
    (∀ (p q : Nat),
      UserCallback.call_with_event (some p) (UserCallback.nested_loop_effect q) = some (some p)) ∧
    (∀ eff, UserCallback.call_with_event none eff = none) :=
  ⟨fun _ _ => rfl, fun _ _ => rfl, fun _ => rfl⟩

end Winit
